import Mathlib

/-!
Shallow embedding of `src/libraries/CurieBle/src/internal/ble_client.c`
(CurieBLE client layer: synchronous blocking calls over an asynchronous
message substrate, a single pending-request slot `sync`, a message
dispatcher `ble_core_client_handle_message`, and minimal connection
state).

Machine integers are modelled as `Nat` with explicit `% 2^32` where the
C code's unsigned arithmetic can wrap (the deadline computation in
`wait_for_condition`).  The dispatcher is modelled as a function from a
message and the pre-state to a list of effects (writes to the sync slot,
session-state updates, subscriber-callback invocations, and the final
`cfw_msg_free`), so that both the resulting state and the order of the
effects can be reasoned about.
-/

/-- 2^32: the modulus of the C `unsigned` arithmetic used by
`wait_for_condition` and of the 32 kHz uptime counter reads. -/
def U32 : Nat := 4294967296

/-- Modelled from the spec: the status-code taxonomy (Success,
GenericError, Timeout, WrongState).  The header defining `ble_status_t`
and `BleStatus` is not part of this repository's `src/`; the source uses
`BLE_STATUS_SUCCESS` as the zero/falsy value (`if (sync.status) return
sync.status;`) and otherwise only relies on the codes being distinct. -/
def BLE_STATUS_SUCCESS : Nat := 0

/-- Modelled from the spec: generic submission-failure code. -/
def BLE_STATUS_ERROR : Nat := 1

/-- Modelled from the spec: timeout status code. -/
def BLE_STATUS_TIMEOUT : Nat := 2

/-- Modelled from the spec: wrong-state (not connected) status code. -/
def BLE_STATUS_WRONG_STATE : Nat := 3

/-- Modelled from the spec: the distinguished service identifier checked
by `handle_msg_id_cfw_svc_avail_evt`; the defining header is not under
`src/`, only equality with the event's `service_id` is relied on. -/
def BLE_CORE_SERVICE_ID : Nat := 16

/-- Modelled from the spec: advertising-timeout reason code; the
defining header is not under `src/`, only distinctness matters. -/
def BLE_SVC_GAP_TO_ADV : Nat := 1

/-- Modelled from the spec: connection-timeout reason code. -/
def BLE_SVC_GAP_TO_CONN : Nat := 2

/-- Modelled from the spec: `struct ble_gatts_char_handles`, the
characteristic handle set (value handle and CCCD handle) copied
wholesale by `handle_msg_id_gatts_add_characteristic_rsp`'s `memcpy`. -/
structure ble_gatts_char_handles where
  value_handle : Nat
  cccd_handle : Nat
  deriving DecidableEq, Repr

/-- The out-parameter destination stored in `sync.param` (a `void *` in
the C code).  `null` models a NULL pointer; the other constructors model
a non-null pointer of the respective referent type together with the
current contents of the pointed-to caller memory, so that "the
destination is left untouched" is expressible. -/
inductive SyncParam where
  | null
  | bda (v : Nat)
  | svcHandle (v : Nat)
  | charHandles (v : ble_gatts_char_handles)
  | descHandle (v : Nat)
  deriving DecidableEq, Repr

/-- `struct cfw_msg_rsp_sync`: the single pending-request slot. -/
structure cfw_msg_rsp_sync where
  response : Nat
  status : Nat
  param : SyncParam
  deriving DecidableEq, Repr

/-- The file-scope mutable state of `ble_client.c`: `conn_handle`,
`connected`, `service_handle`, the two subscriber callback slots
(modelled as "a non-NULL callback is stored" flags; invocations are
recorded as effects), and the `sync` slot. -/
structure ClientState where
  conn_handle : Nat
  connected : Bool
  service_handle : Nat
  ble_client_gap_event_cb : Bool
  ble_client_gatts_event_cb : Bool
  sync : cfw_msg_rsp_sync
  deriving DecidableEq, Repr

/-- Tags passed to the GAP subscriber callback
(`BLE_CLIENT_GAP_EVENT_*`). -/
inductive GapEventTag where
  | connected
  | disconnected
  | advTimeout
  | connTimeout
  | rssi
  deriving DecidableEq, Repr

/-- Tags passed to the GATTS subscriber callback
(`BLE_CLIENT_GATTS_EVENT_*`). -/
inductive GattsEventTag where
  | write
  deriving DecidableEq, Repr

/-- One observable effect of the dispatcher: a write to a field of the
global state, a write through the armed out-parameter pointer, a
subscriber-callback invocation, or the final `cfw_msg_free`. -/
inductive Eff where
  | setSyncStatus (v : Nat)
  | setSyncResponse (v : Nat)
  | writeOut (p : SyncParam)
  | setConnected (b : Bool)
  | setConnHandle (v : Nat)
  | setServiceHandle (v : Nat)
  | callGap (tag : GapEventTag)
  | callGatts (tag : GattsEventTag)
  | free
  deriving DecidableEq, Repr

/-- Inbound messages, one constructor per `MSG_ID_*` case of the
dispatcher's switch, each carrying the payload fields the corresponding
handler reads; `unknown` stands for any message id not listed in the
switch. -/
inductive Msg where
  | svcAvailEvt (service_id : Nat)
  | openSvcRsp (client_handle : Nat)
  | gapWrConfRsp (status : Nat)
  | gapRdBdaRsp (status : Nat) (bd : Nat)
  | gapSmConfigRsp (status : Nat)
  | gapWrAdvDataRsp (status : Nat)
  | gapEnableAdvRsp (status : Nat)
  | gapDisableAdvRsp (status : Nat)
  | gattsAddServiceRsp (status : Nat) (svc_handle : Nat)
  | gattsAddCharRsp (status : Nat) (char_h : ble_gatts_char_handles)
  | gattsAddDescRsp (status : Nat) (handle : Nat)
  | gattsSetAttrRsp (status : Nat)
  | gattsSendNotifIndRsp (status : Nat)
  | gapConnectEvt (conn_handle : Nat)
  | gapDisconnectEvt
  | gapTimeoutEvt (reason : Nat)
  | gapRssiEvt
  | gattsWriteEvt
  | gapDisconnectRsp (status : Nat)
  | gapSetRssiReportRsp (status : Nat)
  | unknown (id : Nat)
  deriving DecidableEq, Repr

/-- `handle_msg_id_cfw_svc_avail_evt`: completes the slot with Success
only when the event carries the distinguished service id. -/
def handle_msg_id_cfw_svc_avail_evt (service_id : Nat) : List Eff :=
  if service_id = BLE_CORE_SERVICE_ID then
    [.setSyncStatus BLE_STATUS_SUCCESS, .setSyncResponse 1]
  else []

/-- `handle_msg_id_cfw_open_svc`. -/
def handle_msg_id_cfw_open_svc (client_handle : Nat) : List Eff :=
  [.setServiceHandle client_handle,
   .setSyncStatus BLE_STATUS_SUCCESS, .setSyncResponse 1]

/-- The common body of the response handlers that only harvest a status
(`handle_msg_id_ble_gap_wr_conf_rsp`, `..._sm_config_rsp`,
`..._wr_adv_data_rsp`, `..._set_attribute_value_rsp`,
`..._send_notif_ind_rsp`, `..._disconnect_rsp`,
`..._set_rssi_report_rsp`). -/
def statusRspTrace (status : Nat) : List Eff :=
  [.setSyncStatus status, .setSyncResponse 1]

/-- `handle_msg_id_ble_gap_rd_bda_rsp`: `if (p_bda && BLE_STATUS_SUCCESS
== rsp->status) memcpy(p_bda, &rsp->bd, ...)` then harvest.  The armed
pointer is non-null with referent type `ble_addr_t` exactly when
`sync.param` is the `bda` variant. -/
def handle_msg_id_ble_gap_rd_bda_rsp (status bd : Nat) (s : ClientState) : List Eff :=
  (match s.sync.param with
   | .bda _ => if BLE_STATUS_SUCCESS = status then [.writeOut (.bda bd)] else []
   | _ => []) ++ statusRspTrace status

/-- `handle_msg_id_gatts_add_service_rsp`. -/
def handle_msg_id_gatts_add_service_rsp (status svc_handle : Nat) (s : ClientState) : List Eff :=
  (match s.sync.param with
   | .svcHandle _ =>
       if BLE_STATUS_SUCCESS = status then [.writeOut (.svcHandle svc_handle)] else []
   | _ => []) ++ statusRspTrace status

/-- `handle_msg_id_gatts_add_characteristic_rsp`. -/
def handle_msg_id_gatts_add_characteristic_rsp (status : Nat)
    (char_h : ble_gatts_char_handles) (s : ClientState) : List Eff :=
  (match s.sync.param with
   | .charHandles _ =>
       if BLE_STATUS_SUCCESS = status then [.writeOut (.charHandles char_h)] else []
   | _ => []) ++ statusRspTrace status

/-- `handle_msg_id_gatts_add_desc_rsp`. -/
def handle_msg_id_gatts_add_desc_rsp (status handle : Nat) (s : ClientState) : List Eff :=
  (match s.sync.param with
   | .descHandle _ =>
       if BLE_STATUS_SUCCESS = status then [.writeOut (.descHandle handle)] else []
   | _ => []) ++ statusRspTrace status

/-- `handle_msg_id_ble_gap_connect_evt_msg`: stores the connection
handle, sets `connected = true`, then invokes the GAP callback (if one
is stored) with the CONNECTED tag. -/
def handle_msg_id_ble_gap_connect_evt_msg (conn_handle : Nat) (s : ClientState) : List Eff :=
  [.setConnHandle conn_handle, .setConnected true] ++
  (if s.ble_client_gap_event_cb then [.callGap .connected] else [])

/-- `handle_msg_id_ble_gap_disconnect_evt_msg`. -/
def handle_msg_id_ble_gap_disconnect_evt_msg (s : ClientState) : List Eff :=
  [.setConnected false] ++
  (if s.ble_client_gap_event_cb then [.callGap .disconnected] else [])

/-- `handle_msg_id_ble_gap_timeout_evt_msg`: sets `connected = false`
unconditionally (before inspecting the reason), then branches on the
embedded reason code to pick the subscriber tag; reasons other than the
two listed fall through with no callback. -/
def handle_msg_id_ble_gap_timeout_evt_msg (reason : Nat) (s : ClientState) : List Eff :=
  [.setConnected false] ++
  (if s.ble_client_gap_event_cb then
     (if reason = BLE_SVC_GAP_TO_ADV then [.callGap .advTimeout]
      else if reason = BLE_SVC_GAP_TO_CONN then [.callGap .connTimeout]
      else [])
   else [])

/-- `handle_msg_id_ble_gap_rssi_evt_msg`. -/
def handle_msg_id_ble_gap_rssi_evt_msg (s : ClientState) : List Eff :=
  if s.ble_client_gap_event_cb then [.callGap .rssi] else []

/-- `handle_msg_id_ble_gatts_write_evt_msg`. -/
def handle_msg_id_ble_gatts_write_evt_msg (s : ClientState) : List Eff :=
  if s.ble_client_gatts_event_cb then [.callGatts .write] else []

/-- `ble_core_client_handle_message`: classify the message by id,
run the matching handler (unknown ids fall through the switch), then
`cfw_msg_free(msg)` unconditionally. -/
def ble_core_client_handle_message (m : Msg) (s : ClientState) : List Eff :=
  (match m with
   | .svcAvailEvt service_id => handle_msg_id_cfw_svc_avail_evt service_id
   | .openSvcRsp client_handle => handle_msg_id_cfw_open_svc client_handle
   | .gapWrConfRsp status => statusRspTrace status
   | .gapRdBdaRsp status bd => handle_msg_id_ble_gap_rd_bda_rsp status bd s
   | .gapSmConfigRsp status => statusRspTrace status
   | .gapWrAdvDataRsp status => statusRspTrace status
   | .gapEnableAdvRsp _ => []
   | .gapDisableAdvRsp _ => []
   | .gattsAddServiceRsp status svc_handle =>
       handle_msg_id_gatts_add_service_rsp status svc_handle s
   | .gattsAddCharRsp status char_h =>
       handle_msg_id_gatts_add_characteristic_rsp status char_h s
   | .gattsAddDescRsp status handle => handle_msg_id_gatts_add_desc_rsp status handle s
   | .gattsSetAttrRsp status => statusRspTrace status
   | .gattsSendNotifIndRsp status => statusRspTrace status
   | .gapConnectEvt conn_handle => handle_msg_id_ble_gap_connect_evt_msg conn_handle s
   | .gapDisconnectEvt => handle_msg_id_ble_gap_disconnect_evt_msg s
   | .gapTimeoutEvt reason => handle_msg_id_ble_gap_timeout_evt_msg reason s
   | .gapRssiEvt => handle_msg_id_ble_gap_rssi_evt_msg s
   | .gattsWriteEvt => handle_msg_id_ble_gatts_write_evt_msg s
   | .gapDisconnectRsp status => statusRspTrace status
   | .gapSetRssiReportRsp status => statusRspTrace status
   | .unknown _ => []) ++ [.free]

/-- Apply one effect to the state (callback invocations and the message
release do not change the client state). -/
def applyEff (s : ClientState) : Eff → ClientState
  | .setSyncStatus v => { s with sync := { s.sync with status := v } }
  | .setSyncResponse v => { s with sync := { s.sync with response := v } }
  | .writeOut p => { s with sync := { s.sync with param := p } }
  | .setConnected b => { s with connected := b }
  | .setConnHandle v => { s with conn_handle := v }
  | .setServiceHandle v => { s with service_handle := v }
  | .callGap _ => s
  | .callGatts _ => s
  | .free => s

/-- The state after the dispatcher has handled one message. -/
def dispatchState (m : Msg) (s : ClientState) : ClientState :=
  (ble_core_client_handle_message m s).foldl applyEff s

/-- Is this effect a subscriber-callback invocation? -/
def isCall : Eff → Bool
  | .callGap _ => true
  | .callGatts _ => true
  | _ => false

/-- Is this effect the message release? -/
def isFree : Eff → Bool
  | .free => true
  | _ => false

/-- The callback invocations contained in an effect trace, in order. -/
def callsOf (t : List Eff) : List Eff := t.filter isCall

/-- How many times an effect trace releases the message. -/
def countFree (t : List Eff) : Nat := (t.filter isFree).length

/-- One 32-bit read of the 32 kHz uptime counter.  The environment's
clock is an arbitrary `Nat`-valued sequence indexed by read number; the
hardware register truncates it to 32 bits. -/
def get_uptime_32k (clock : Nat → Nat) (i : Nat) : Nat := clock i % U32

/-- The body of the `wait_for_condition` macro's `while` loop: at
iteration `i` the environment may run the dispatcher (`deliver i`), then
the polled condition (`sync.response`) is checked, then the fresh uptime
read `get_uptime_32k clock (i+1)` is compared against the deadline.
`fuel` bounds the number of iterations modelled (the C loop is unbounded
and `none` means the bound was hit before the loop exited). -/
def pollLoop (clock : Nat → Nat) (deadline : Nat)
    (deliver : Nat → ClientState → ClientState) :
    Nat → Nat → ClientState → Option (Nat × ClientState)
  | _, 0, _ => none
  | i, fuel + 1, s =>
    let s1 := deliver i s
    if s1.sync.response ≠ 0 then some (BLE_STATUS_SUCCESS, s1)
    else if get_uptime_32k clock (i + 1) > deadline then some (BLE_STATUS_TIMEOUT, s1)
    else pollLoop clock deadline deliver (i + 1) fuel s1

/-- The `wait_for_condition(sync.response, status)` macro: `unsigned
timeout = get_uptime_32k() + 32768;` (32-bit wrap-around arithmetic),
`status = BLE_STATUS_SUCCESS;` and then busy-poll until the condition
holds or a fresh uptime read exceeds the deadline, in which case
`status = BLE_STATUS_TIMEOUT`. -/
def wait_for_condition (clock : Nat → Nat)
    (deliver : Nat → ClientState → ClientState) (fuel : Nat)
    (s : ClientState) : Option (Nat × ClientState) :=
  pollLoop clock ((get_uptime_32k clock 0 + 32768) % U32) deliver 0 fuel s

/-- The environment in which the dispatcher runs exactly once, with
message `m`, at poll iteration `k`. -/
def deliverAt (k : Nat) (m : Msg) : Nat → ClientState → ClientState :=
  fun i t => if i = k then dispatchState m t else t

/-- The observable outcome of one public call: the returned status, the
final client state, and whether a request was handed to the messaging
substrate at all. -/
structure CallResult where
  ret : Nat
  state : ClientState
  submitted : Bool
  deriving DecidableEq, Repr

/-- The requests `ble_client_init` can hand to the substrate. -/
inductive Submission where
  | registerSvcAvail
  | openService
  deriving DecidableEq, Repr

/-- `ble_client_gap_get_bda`: arm `sync.response = 0` and `sync.param =
p_bda`, submit `ble_gap_read_bda` (its return code is the environment
parameter `submit_rc`, nonzero meaning rejection), busy-wait, and return
the harvested `sync.status` on successful completion. -/
def ble_client_gap_get_bda (submit_rc : Nat) (p_bda : SyncParam)
    (clock : Nat → Nat) (deliver : Nat → ClientState → ClientState) (fuel : Nat)
    (s0 : ClientState) : Option CallResult :=
  let s := { s0 with sync := { s0.sync with response := 0, param := p_bda } }
  if submit_rc ≠ 0 then some ⟨BLE_STATUS_ERROR, s, true⟩
  else
    match wait_for_condition clock deliver fuel s with
    | none => none
    | some (status, s1) =>
      if status ≠ BLE_STATUS_SUCCESS then some ⟨status, s1, true⟩
      else some ⟨s1.sync.status, s1, true⟩

/-- `ble_client_gatts_add_service` (the `uuid` and `type` arguments only
travel to the substrate and do not affect the client state). -/
def ble_client_gatts_add_service (submit_rc : Nat) (uuid ty : Nat) (svc_handle : SyncParam)
    (clock : Nat → Nat) (deliver : Nat → ClientState → ClientState) (fuel : Nat)
    (s0 : ClientState) : Option CallResult :=
  let s := { s0 with sync := { s0.sync with response := 0, param := svc_handle } }
  if submit_rc ≠ 0 then some ⟨BLE_STATUS_ERROR, s, true⟩
  else
    match wait_for_condition clock deliver fuel s with
    | none => none
    | some (status, s1) =>
      if status ≠ BLE_STATUS_SUCCESS then some ⟨status, s1, true⟩
      else some ⟨s1.sync.status, s1, true⟩

/-- `ble_client_gatts_add_characteristic`. -/
def ble_client_gatts_add_characteristic (submit_rc : Nat) (svc_handle char_data : Nat)
    (handles : SyncParam)
    (clock : Nat → Nat) (deliver : Nat → ClientState → ClientState) (fuel : Nat)
    (s0 : ClientState) : Option CallResult :=
  let s := { s0 with sync := { s0.sync with response := 0, param := handles } }
  if submit_rc ≠ 0 then some ⟨BLE_STATUS_ERROR, s, true⟩
  else
    match wait_for_condition clock deliver fuel s with
    | none => none
    | some (status, s1) =>
      if status ≠ BLE_STATUS_SUCCESS then some ⟨status, s1, true⟩
      else some ⟨s1.sync.status, s1, true⟩

/-- `ble_client_gatts_add_descriptor`. -/
def ble_client_gatts_add_descriptor (submit_rc : Nat) (svc_handle desc : Nat)
    (handle : SyncParam)
    (clock : Nat → Nat) (deliver : Nat → ClientState → ClientState) (fuel : Nat)
    (s0 : ClientState) : Option CallResult :=
  let s := { s0 with sync := { s0.sync with response := 0, param := handle } }
  if submit_rc ≠ 0 then some ⟨BLE_STATUS_ERROR, s, true⟩
  else
    match wait_for_condition clock deliver fuel s with
    | none => none
    | some (status, s1) =>
      if status ≠ BLE_STATUS_SUCCESS then some ⟨status, s1, true⟩
      else some ⟨s1.sync.status, s1, true⟩

/-- `ble_client_gatts_send_notif_ind`: rejected with WrongState before
any arming, submission or wait when `connected` is false; otherwise arms
only `sync.response` (no out-parameter), submits the notification or
indication, and waits. -/
def ble_client_gatts_send_notif_ind (submit_rc : Nat)
    (value_handle len p_value offset : Nat) (indication : Bool)
    (clock : Nat → Nat) (deliver : Nat → ClientState → ClientState) (fuel : Nat)
    (s0 : ClientState) : Option CallResult :=
  if !s0.connected then some ⟨BLE_STATUS_WRONG_STATE, s0, false⟩
  else
    let s := { s0 with sync := { s0.sync with response := 0 } }
    if submit_rc ≠ 0 then some ⟨BLE_STATUS_ERROR, s, true⟩
    else
      match wait_for_condition clock deliver fuel s with
      | none => none
      | some (status, s1) =>
        if status ≠ BLE_STATUS_SUCCESS then some ⟨status, s1, true⟩
        else some ⟨s1.sync.status, s1, true⟩

/-- `ble_client_gap_disconnect`. -/
def ble_client_gap_disconnect (submit_rc : Nat) (reason : Nat)
    (clock : Nat → Nat) (deliver : Nat → ClientState → ClientState) (fuel : Nat)
    (s0 : ClientState) : Option CallResult :=
  if !s0.connected then some ⟨BLE_STATUS_WRONG_STATE, s0, false⟩
  else
    let s := { s0 with sync := { s0.sync with response := 0 } }
    if submit_rc ≠ 0 then some ⟨BLE_STATUS_ERROR, s, true⟩
    else
      match wait_for_condition clock deliver fuel s with
      | none => none
      | some (status, s1) =>
        if status ≠ BLE_STATUS_SUCCESS then some ⟨status, s1, true⟩
        else some ⟨s1.sync.status, s1, true⟩

/-- `ble_client_gap_set_rssi_report`. -/
def ble_client_gap_set_rssi_report (submit_rc : Nat) (enable : Bool)
    (clock : Nat → Nat) (deliver : Nat → ClientState → ClientState) (fuel : Nat)
    (s0 : ClientState) : Option CallResult :=
  if !s0.connected then some ⟨BLE_STATUS_WRONG_STATE, s0, false⟩
  else
    let s := { s0 with sync := { s0.sync with response := 0 } }
    if submit_rc ≠ 0 then some ⟨BLE_STATUS_ERROR, s, true⟩
    else
      match wait_for_condition clock deliver fuel s with
      | none => none
      | some (status, s1) =>
        if status ≠ BLE_STATUS_SUCCESS then some ⟨status, s1, true⟩
        else some ⟨s1.sync.status, s1, true⟩

/-- `ble_client_gap_start_advertise`: builds the advertising parameters
and hands them to `ble_gap_start_advertise`, returning that submission
outcome directly — no arming of `sync`, no wait (fire-and-forget). -/
def ble_client_gap_start_advertise (submit_rc : Nat) (timeout : Nat)
    (s : ClientState) : CallResult :=
  ⟨submit_rc, s, true⟩

/-- `ble_client_gap_stop_advertise`: fire-and-forget. -/
def ble_client_gap_stop_advertise (submit_rc : Nat) (s : ClientState) : CallResult :=
  ⟨submit_rc, s, true⟩

/-- `ble_client_init`: arm and submit the service-availability
registration (`reg_rc` is `cfw_register_svc_available`'s return code),
busy-wait for the distinguished availability event; on success, spin for
a short settling delay (pure time, no state effect), arm again, submit
`cfw_open_service` (no return-code check in the C code), busy-wait
again, and only then store the subscriber callbacks.  The result carries
the returned status, the final state and the list of requests that were
handed to the substrate. -/
def ble_client_init (reg_rc : Nat)
    (clockA clockB : Nat → Nat)
    (deliverA deliverB : Nat → ClientState → ClientState)
    (fuelA fuelB : Nat) (gap_cb gatts_cb : Bool)
    (s0 : ClientState) : Option (Nat × ClientState × List Submission) :=
  let s := { s0 with sync := { s0.sync with response := 0 } }
  if reg_rc ≠ 0 then some (BLE_STATUS_ERROR, s, [.registerSvcAvail])
  else
    match wait_for_condition clockA deliverA fuelA s with
    | none => none
    | some (status, s1) =>
      if status ≠ BLE_STATUS_SUCCESS then some (status, s1, [.registerSvcAvail])
      else
        let s2 := { s1 with sync := { s1.sync with response := 0 } }
        match wait_for_condition clockB deliverB fuelB s2 with
        | none => none
        | some (status2, s3) =>
          if status2 ≠ BLE_STATUS_SUCCESS then
            some (status2, s3, [.registerSvcAvail, .openService])
          else
            some (s3.sync.status,
              { s3 with ble_client_gap_event_cb := gap_cb,
                        ble_client_gatts_event_cb := gatts_cb },
              [.registerSvcAvail, .openService])

/-- If the slot is unarmed, no delivery happens before iteration `k`,
the clock stays at or below the deadline before iteration `k`, and the
delivery at iteration `k` completes the slot, the poll loop exits at
iteration `k` with Success and the dispatched state. -/
lemma pollLoop_complete (clock : Nat → Nat) (deadline k : Nat) (m : Msg)
    (s : ClientState) (hresp : s.sync.response = 0)
    (hdone : (dispatchState m s).sync.response ≠ 0)
    (hno : ∀ j, j < k → get_uptime_32k clock (j + 1) ≤ deadline) :
    ∀ fuel i, i ≤ k → k < i + fuel →
      pollLoop clock deadline (deliverAt k m) i fuel s
        = some (BLE_STATUS_SUCCESS, dispatchState m s) := by
  intro fuel
  induction fuel with
  | zero => intro i hik hlt; omega
  | succ fuel ih =>
    intro i hik hlt
    by_cases hik2 : i = k
    · subst hik2
      simp [pollLoop, deliverAt, hdone]
    · have hiklt : i < k := lt_of_le_of_ne hik hik2
      have hguard := hno i hiklt
      simp only [pollLoop, deliverAt, if_neg hik2]
      rw [if_neg (by simp [hresp]), if_neg (by omega)]
      exact ih (i + 1) hiklt (by omega)

/-- If the slot is unarmed, nothing is delivered, the clock stays at or
below the deadline before iteration `k`, and the read at iteration `k`
exceeds the deadline, the poll loop exits at iteration `k` with Timeout
and an unchanged state. -/
lemma pollLoop_timeout (clock : Nat → Nat) (deadline k : Nat)
    (s : ClientState) (hresp : s.sync.response = 0)
    (hno : ∀ j, j < k → get_uptime_32k clock (j + 1) ≤ deadline)
    (hk : deadline < get_uptime_32k clock (k + 1)) :
    ∀ fuel i, i ≤ k → k < i + fuel →
      pollLoop clock deadline (fun _ t => t) i fuel s
        = some (BLE_STATUS_TIMEOUT, s) := by
  intro fuel
  induction fuel with
  | zero => intro i hik hlt; omega
  | succ fuel ih =>
    intro i hik hlt
    by_cases hik2 : i = k
    · subst hik2
      simp only [pollLoop]
      rw [if_neg (by simp [hresp]), if_pos (by omega)]
    · have hiklt : i < k := lt_of_le_of_ne hik hik2
      have hguard := hno i hiklt
      simp only [pollLoop]
      rw [if_neg (by simp [hresp]), if_neg (by omega)]
      exact ih (i + 1) hiklt (by omega)

/-- `wait_for_condition` form of `pollLoop_complete`. -/
lemma wait_complete (clock : Nat → Nat) (k fuel : Nat) (m : Msg)
    (s : ClientState) (hresp : s.sync.response = 0)
    (hdone : (dispatchState m s).sync.response ≠ 0)
    (hno : ∀ j, j < k →
      get_uptime_32k clock (j + 1) ≤ (get_uptime_32k clock 0 + 32768) % U32)
    (hfuel : k < fuel) :
    wait_for_condition clock (deliverAt k m) fuel s
      = some (BLE_STATUS_SUCCESS, dispatchState m s) :=
  pollLoop_complete clock _ k m s hresp hdone hno fuel 0 (Nat.zero_le k) (by omega)

/-- `wait_for_condition` form of `pollLoop_timeout`. -/
lemma wait_timeout (clock : Nat → Nat) (k fuel : Nat)
    (s : ClientState) (hresp : s.sync.response = 0)
    (hno : ∀ j, j < k →
      get_uptime_32k clock (j + 1) ≤ (get_uptime_32k clock 0 + 32768) % U32)
    (hk : (get_uptime_32k clock 0 + 32768) % U32 < get_uptime_32k clock (k + 1))
    (hfuel : k < fuel) :
    wait_for_condition clock (fun _ t => t) fuel s
      = some (BLE_STATUS_TIMEOUT, s) :=
  pollLoop_timeout clock _ k s hresp hno hk fuel 0 (Nat.zero_le k) (by omega)

/-- A fresh client state: disconnected, no callbacks stored, slot
unarmed. -/
def initState : ClientState := ⟨0, false, 0, false, false, ⟨0, 0, .null⟩⟩

/-- A client state with an established connection (id 7) and both
subscriber callbacks stored. -/
def connState : ClientState := ⟨7, true, 3, true, true, ⟨0, 0, .null⟩⟩

/-- C2: every operation that requires an established connection (send
notification/indication, disconnect, enable/disable signal-strength
reporting) returns WrongState immediately when the session state shows
not connected: the state (and so the pending-request slot) is untouched,
no request is submitted to the substrate, and the result is independent
of the clock, of any deliveries, and of the poll budget (even a zero
budget), i.e. no wait occurs. -/
theorem C2_wrong_state_immediate (s0 : ClientState) (hconn : s0.connected = false)
    (submit_rc value_handle len p_value offset reason : Nat)
    (indication enable : Bool) (clock : Nat → Nat)
    (deliver : Nat → ClientState → ClientState) (fuel : Nat) :
    ble_client_gatts_send_notif_ind submit_rc value_handle len p_value offset indication
        clock deliver fuel s0 = some ⟨BLE_STATUS_WRONG_STATE, s0, false⟩ ∧
    ble_client_gap_disconnect submit_rc reason clock deliver fuel s0
      = some ⟨BLE_STATUS_WRONG_STATE, s0, false⟩ ∧
    ble_client_gap_set_rssi_report submit_rc enable clock deliver fuel s0
      = some ⟨BLE_STATUS_WRONG_STATE, s0, false⟩ := by
  refine ⟨?_, ?_, ?_⟩ <;>
    simp [ble_client_gatts_send_notif_ind, ble_client_gap_disconnect,
          ble_client_gap_set_rssi_report, hconn]

/-- C2 witness: at a concrete disconnected state, with a zero poll
budget, all three gated operations return WrongState with the state
unchanged and nothing submitted. -/
theorem C2_wrong_state_witness :
    ble_client_gatts_send_notif_ind 0 1 2 3 4 false (fun _ => 0) (fun _ t => t) 0 initState
      = some ⟨BLE_STATUS_WRONG_STATE, initState, false⟩ ∧
    ble_client_gap_disconnect 0 5 (fun _ => 0) (fun _ t => t) 0 initState
      = some ⟨BLE_STATUS_WRONG_STATE, initState, false⟩ ∧
    ble_client_gap_set_rssi_report 0 true (fun _ => 0) (fun _ t => t) 0 initState
      = some ⟨BLE_STATUS_WRONG_STATE, initState, false⟩ :=
  C2_wrong_state_immediate initState rfl 0 1 2 3 4 5 false true (fun _ => 0) (fun _ t => t) 0

/-- C7: start-advertising and stop-advertising are fire-and-forget: they
never touch the pending-request slot (the whole state is returned
unchanged), never wait (they are total functions of the submission
outcome alone, taking no clock and no poll budget), and return the
substrate's submission outcome verbatim. -/
theorem C7_fire_and_forget (submit_rc timeout : Nat) (s : ClientState) :
    ble_client_gap_start_advertise submit_rc timeout s = ⟨submit_rc, s, true⟩ ∧
    ble_client_gap_stop_advertise submit_rc s = ⟨submit_rc, s, true⟩ :=
  ⟨rfl, rfl⟩

/-- C9: the dispatcher releases every inbound message exactly once, and
a message of a kind not listed in the classifier falls through with no
other effect: its whole trace is the single release, the state is
unchanged, and no callback is invoked. -/
theorem C9_release_exactly_once (m : Msg) (s : ClientState) (id : Nat) :
    countFree (ble_core_client_handle_message m s) = 1 ∧
    ble_core_client_handle_message (.unknown id) s = [.free] ∧
    dispatchState (.unknown id) s = s ∧
    callsOf (ble_core_client_handle_message (.unknown id) s) = [] := by
  refine ⟨?_, by simp [ble_core_client_handle_message],
    by simp [dispatchState, ble_core_client_handle_message, applyEff],
    by simp [callsOf, ble_core_client_handle_message, isCall]⟩
  cases m <;>
    simp only [ble_core_client_handle_message, handle_msg_id_cfw_svc_avail_evt,
      handle_msg_id_cfw_open_svc, statusRspTrace, handle_msg_id_ble_gap_rd_bda_rsp,
      handle_msg_id_gatts_add_service_rsp, handle_msg_id_gatts_add_characteristic_rsp,
      handle_msg_id_gatts_add_desc_rsp, handle_msg_id_ble_gap_connect_evt_msg,
      handle_msg_id_ble_gap_disconnect_evt_msg, handle_msg_id_ble_gap_timeout_evt_msg,
      handle_msg_id_ble_gap_rssi_evt_msg, handle_msg_id_ble_gatts_write_evt_msg] <;>
    (repeat' split) <;> rfl

/-- C10: with no stored callbacks (both callback slots NULL, as before
`ble_client_init` stores them), delivering any message invokes no
subscriber callback, the message is still released exactly once, and the
session-state updates of the connection events still happen. -/
theorem C10_null_callbacks_safe (m : Msg) (s : ClientState) (ch r : Nat)
    (hgap : s.ble_client_gap_event_cb = false)
    (hgatts : s.ble_client_gatts_event_cb = false) :
    callsOf (ble_core_client_handle_message m s) = [] ∧
    countFree (ble_core_client_handle_message m s) = 1 ∧
    (dispatchState (.gapConnectEvt ch) s).connected = true ∧
    (dispatchState (.gapConnectEvt ch) s).conn_handle = ch ∧
    (dispatchState .gapDisconnectEvt s).connected = false ∧
    (dispatchState (.gapTimeoutEvt r) s).connected = false := by
  refine ⟨?_, ?_, ?_, ?_, ?_, ?_⟩
  · cases m <;>
      simp only [ble_core_client_handle_message, handle_msg_id_cfw_svc_avail_evt,
        handle_msg_id_cfw_open_svc, statusRspTrace, handle_msg_id_ble_gap_rd_bda_rsp,
        handle_msg_id_gatts_add_service_rsp, handle_msg_id_gatts_add_characteristic_rsp,
        handle_msg_id_gatts_add_desc_rsp, handle_msg_id_ble_gap_connect_evt_msg,
        handle_msg_id_ble_gap_disconnect_evt_msg, handle_msg_id_ble_gap_timeout_evt_msg,
        handle_msg_id_ble_gap_rssi_evt_msg, handle_msg_id_ble_gatts_write_evt_msg,
        hgap, hgatts, if_false, Bool.false_eq_true] <;>
      (repeat' split) <;> rfl
  · cases m <;>
      simp only [ble_core_client_handle_message, handle_msg_id_cfw_svc_avail_evt,
        handle_msg_id_cfw_open_svc, statusRspTrace, handle_msg_id_ble_gap_rd_bda_rsp,
        handle_msg_id_gatts_add_service_rsp, handle_msg_id_gatts_add_characteristic_rsp,
        handle_msg_id_gatts_add_desc_rsp, handle_msg_id_ble_gap_connect_evt_msg,
        handle_msg_id_ble_gap_disconnect_evt_msg, handle_msg_id_ble_gap_timeout_evt_msg,
        handle_msg_id_ble_gap_rssi_evt_msg, handle_msg_id_ble_gatts_write_evt_msg] <;>
      (repeat' split) <;> rfl
  · simp [dispatchState, ble_core_client_handle_message,
      handle_msg_id_ble_gap_connect_evt_msg, hgap, applyEff]
  · simp [dispatchState, ble_core_client_handle_message,
      handle_msg_id_ble_gap_connect_evt_msg, hgap, applyEff]
  · simp [dispatchState, ble_core_client_handle_message,
      handle_msg_id_ble_gap_disconnect_evt_msg, hgap, applyEff]
  · simp [dispatchState, ble_core_client_handle_message,
      handle_msg_id_ble_gap_timeout_evt_msg, hgap, applyEff]

/-- C10 witness: delivering a connect event, a disconnect event, a
timeout event and a write event to the fresh state (no callbacks stored)
invokes nothing, still releases each message, and still updates the
connection state. -/
theorem C10_null_callbacks_witness :
    callsOf (ble_core_client_handle_message (.gapConnectEvt 9) initState) = [] ∧
    countFree (ble_core_client_handle_message (.gapConnectEvt 9) initState) = 1 ∧
    (dispatchState (.gapConnectEvt 9) initState).connected = true ∧
    (dispatchState (.gapConnectEvt 9) initState).conn_handle = 9 ∧
    (dispatchState .gapDisconnectEvt initState).connected = false ∧
    (dispatchState (.gapTimeoutEvt BLE_SVC_GAP_TO_CONN) initState).connected = false :=
  C10_null_callbacks_safe (.gapConnectEvt 9) initState 9 BLE_SVC_GAP_TO_CONN rfl rfl

/-- C4: for the four response handlers with an out-parameter destination
(read-address, add-service, add-characteristic, add-descriptor), the
destination is written if and only if the response status is Success: on
any non-success status the armed destination is left entirely untouched
(while the status is still harvested verbatim), and on Success with a
non-null armed destination it receives exactly the response payload. -/
theorem C4_outparam_iff_success (s : ClientState) (st bd sh dh b0 h0 d0 : Nat)
    (ch c0 : ble_gatts_char_handles) (hst : st ≠ BLE_STATUS_SUCCESS) :
    ((dispatchState (.gapRdBdaRsp st bd) s).sync.param = s.sync.param ∧
     (dispatchState (.gattsAddServiceRsp st sh) s).sync.param = s.sync.param ∧
     (dispatchState (.gattsAddCharRsp st ch) s).sync.param = s.sync.param ∧
     (dispatchState (.gattsAddDescRsp st dh) s).sync.param = s.sync.param) ∧
    ((dispatchState (.gapRdBdaRsp st bd) s).sync.status = st ∧
     (dispatchState (.gattsAddServiceRsp st sh) s).sync.status = st ∧
     (dispatchState (.gattsAddCharRsp st ch) s).sync.status = st ∧
     (dispatchState (.gattsAddDescRsp st dh) s).sync.status = st) ∧
    ((s.sync.param = .bda b0 →
      (dispatchState (.gapRdBdaRsp BLE_STATUS_SUCCESS bd) s).sync.param = .bda bd) ∧
     (s.sync.param = .svcHandle h0 →
      (dispatchState (.gattsAddServiceRsp BLE_STATUS_SUCCESS sh) s).sync.param
        = .svcHandle sh) ∧
     (s.sync.param = .charHandles c0 →
      (dispatchState (.gattsAddCharRsp BLE_STATUS_SUCCESS ch) s).sync.param
        = .charHandles ch) ∧
     (s.sync.param = .descHandle d0 →
      (dispatchState (.gattsAddDescRsp BLE_STATUS_SUCCESS dh) s).sync.param
        = .descHandle dh)) := by
  have hst2 : ¬ (BLE_STATUS_SUCCESS = st) := fun h => hst h.symm
  rcases hp : s.sync.param with _ | b | h | c | d <;>
    simp_all [dispatchState, ble_core_client_handle_message,
      handle_msg_id_ble_gap_rd_bda_rsp, handle_msg_id_gatts_add_service_rsp,
      handle_msg_id_gatts_add_characteristic_rsp, handle_msg_id_gatts_add_desc_rsp,
      statusRspTrace, applyEff, hp]

/-- C4 witness: with the slot armed with a characteristic-handles
destination, a failing (status 5) add-characteristic response leaves the
destination untouched and harvests status 5, while a Success response
overwrites it with the response payload. -/
theorem C4_outparam_witness :
    (dispatchState (.gattsAddCharRsp 5 ⟨16, 17⟩)
        { initState with sync := ⟨0, 0, .charHandles ⟨1, 2⟩⟩ }).sync.param
      = .charHandles ⟨1, 2⟩ ∧
    (dispatchState (.gattsAddCharRsp 5 ⟨16, 17⟩)
        { initState with sync := ⟨0, 0, .charHandles ⟨1, 2⟩⟩ }).sync.status = 5 ∧
    (dispatchState (.gattsAddCharRsp BLE_STATUS_SUCCESS ⟨16, 17⟩)
        { initState with sync := ⟨0, 0, .charHandles ⟨1, 2⟩⟩ }).sync.param
      = .charHandles ⟨16, 17⟩ :=
  have h := C4_outparam_iff_success
    { initState with sync := ⟨0, 0, .charHandles ⟨1, 2⟩⟩ }
    5 0 0 0 0 0 0 ⟨16, 17⟩ ⟨1, 2⟩ (by decide)
  ⟨h.1.2.2.1, h.2.1.2.2.1, h.2.2.2.2.1 rfl⟩

/-- C5 counterexample: the claim says a timeout event with the
advertising reason causes no state change to the Connected flag, but the
handler clears `connected` unconditionally before branching on the
reason: delivering an advertising-reason timeout event to a connected
state flips Connected from true to false. -/
theorem C5_adv_timeout_counterexample :
    connState.connected = true ∧
    (dispatchState (.gapTimeoutEvt BLE_SVC_GAP_TO_ADV) connState).connected = false :=
  ⟨rfl, rfl⟩

/-- C5 (amended): a timeout event sets Connected := false regardless of
the embedded reason code (so an advertising-reason timeout does change
the flag when a connection was established; it is a no-op only when
already disconnected); the reason code selects the subscriber tag: the
advertising reason fires only the advertising-timeout tag and the
connection-attempt reason fires only the connection-timeout tag. -/
theorem C5_timeout_event_behaviour (s : ClientState)
    (hcb : s.ble_client_gap_event_cb = true) :
    ((dispatchState (.gapTimeoutEvt BLE_SVC_GAP_TO_ADV) s).connected = false ∧
     callsOf (ble_core_client_handle_message (.gapTimeoutEvt BLE_SVC_GAP_TO_ADV) s)
       = [.callGap .advTimeout]) ∧
    ((dispatchState (.gapTimeoutEvt BLE_SVC_GAP_TO_CONN) s).connected = false ∧
     callsOf (ble_core_client_handle_message (.gapTimeoutEvt BLE_SVC_GAP_TO_CONN) s)
       = [.callGap .connTimeout]) := by
  simp [dispatchState, ble_core_client_handle_message,
    handle_msg_id_ble_gap_timeout_evt_msg, hcb, callsOf, isCall, applyEff,
    BLE_SVC_GAP_TO_ADV, BLE_SVC_GAP_TO_CONN]

/-- C5 witness: at the concrete connected state with a stored callback,
both timeout reasons clear Connected and fire exactly their own tag. -/
theorem C5_timeout_event_witness :
    ((dispatchState (.gapTimeoutEvt BLE_SVC_GAP_TO_ADV) connState).connected = false ∧
     callsOf (ble_core_client_handle_message (.gapTimeoutEvt BLE_SVC_GAP_TO_ADV) connState)
       = [.callGap .advTimeout]) ∧
    ((dispatchState (.gapTimeoutEvt BLE_SVC_GAP_TO_CONN) connState).connected = false ∧
     callsOf (ble_core_client_handle_message (.gapTimeoutEvt BLE_SVC_GAP_TO_CONN) connState)
       = [.callGap .connTimeout]) :=
  C5_timeout_event_behaviour connState rfl

/-- C6: a connect event writes the connection handle and sets Connected
:= true strictly before the connection-category subscriber is invoked
with the connected tag (visible in the effect order), and a disconnect
event sets Connected := false before the disconnected-tag invocation;
the post-event state is updated, so a connection-gated operation run
right after the connect event gets past its WrongState guard (it
submits, rather than failing with WrongState). -/
theorem C6_connect_event_order (s : ClientState) (h : Nat)
    (hcb : s.ble_client_gap_event_cb = true)
    (clock : Nat → Nat) (deliver : Nat → ClientState → ClientState) (fuel : Nat) :
    ble_core_client_handle_message (.gapConnectEvt h) s
      = [.setConnHandle h, .setConnected true, .callGap .connected, .free] ∧
    (dispatchState (.gapConnectEvt h) s).connected = true ∧
    (dispatchState (.gapConnectEvt h) s).conn_handle = h ∧
    ble_core_client_handle_message .gapDisconnectEvt s
      = [.setConnected false, .callGap .disconnected, .free] ∧
    (dispatchState .gapDisconnectEvt s).connected = false ∧
    (∃ r : CallResult,
      ble_client_gap_disconnect 1 0 clock deliver fuel (dispatchState (.gapConnectEvt h) s)
        = some r ∧ r.ret ≠ BLE_STATUS_WRONG_STATE ∧ r.submitted = true) := by
  have hconn : (dispatchState (.gapConnectEvt h) s).connected = true := by
    simp [dispatchState, ble_core_client_handle_message,
      handle_msg_id_ble_gap_connect_evt_msg, hcb, applyEff]
  refine ⟨?_, hconn, ?_, ?_, ?_, ?_⟩
  · simp [ble_core_client_handle_message, handle_msg_id_ble_gap_connect_evt_msg, hcb]
  · simp [dispatchState, ble_core_client_handle_message,
      handle_msg_id_ble_gap_connect_evt_msg, hcb, applyEff]
  · simp [ble_core_client_handle_message, handle_msg_id_ble_gap_disconnect_evt_msg, hcb]
  · simp [dispatchState, ble_core_client_handle_message,
      handle_msg_id_ble_gap_disconnect_evt_msg, hcb, applyEff]
  · refine ⟨⟨BLE_STATUS_ERROR,
      { dispatchState (.gapConnectEvt h) s with
        sync := { (dispatchState (.gapConnectEvt h) s).sync with response := 0 } }, true⟩,
      ?_, by simp [BLE_STATUS_ERROR, BLE_STATUS_WRONG_STATE], rfl⟩
    simp [ble_client_gap_disconnect, hconn]

/-- C6 witness: a connect event with handle 9 delivered to the fresh
state with a stored callback. -/
theorem C6_connect_event_witness :
    ble_core_client_handle_message (.gapConnectEvt 9) { initState with ble_client_gap_event_cb := true }
      = [.setConnHandle 9, .setConnected true, .callGap .connected, .free] ∧
    (dispatchState (.gapConnectEvt 9) { initState with ble_client_gap_event_cb := true }).connected = true ∧
    (dispatchState (.gapConnectEvt 9) { initState with ble_client_gap_event_cb := true }).conn_handle = 9 ∧
    ble_core_client_handle_message .gapDisconnectEvt { initState with ble_client_gap_event_cb := true }
      = [.setConnected false, .callGap .disconnected, .free] ∧
    (dispatchState .gapDisconnectEvt { initState with ble_client_gap_event_cb := true }).connected = false ∧
    (∃ r : CallResult,
      ble_client_gap_disconnect 1 0 (fun _ => 0) (fun _ t => t) 0
          (dispatchState (.gapConnectEvt 9) { initState with ble_client_gap_event_cb := true })
        = some r ∧ r.ret ≠ BLE_STATUS_WRONG_STATE ∧ r.submitted = true) :=
  C6_connect_event_order { initState with ble_client_gap_event_cb := true } 9 rfl
    (fun _ => 0) (fun _ t => t) 0


/-- C1: for each blocking operation with an out-parameter destination
(read local address, add service, add characteristic, add descriptor),
if submission is accepted and the dispatcher delivers a Success response
carrying a payload at some poll iteration `k` before the deadline, the
call returns Success and the caller's destination holds exactly the
payload the dispatcher wrote. -/
theorem C1_outparam_delivery (s0 : ClientState) (clock : Nat → Nat) (k fuel : Nat)
    (b0 bd sh0 sh dh0 dh uuid ty svch cdata dsc : Nat)
    (c0 ch : ble_gatts_char_handles)
    (hno : ∀ j, j < k →
      get_uptime_32k clock (j + 1) ≤ (get_uptime_32k clock 0 + 32768) % U32)
    (hfuel : k < fuel) :
    (∃ s1, ble_client_gap_get_bda 0 (.bda b0) clock
        (deliverAt k (.gapRdBdaRsp BLE_STATUS_SUCCESS bd)) fuel s0
        = some ⟨BLE_STATUS_SUCCESS, s1, true⟩ ∧ s1.sync.param = .bda bd) ∧
    (∃ s1, ble_client_gatts_add_service 0 uuid ty (.svcHandle sh0) clock
        (deliverAt k (.gattsAddServiceRsp BLE_STATUS_SUCCESS sh)) fuel s0
        = some ⟨BLE_STATUS_SUCCESS, s1, true⟩ ∧ s1.sync.param = .svcHandle sh) ∧
    (∃ s1, ble_client_gatts_add_characteristic 0 svch cdata (.charHandles c0) clock
        (deliverAt k (.gattsAddCharRsp BLE_STATUS_SUCCESS ch)) fuel s0
        = some ⟨BLE_STATUS_SUCCESS, s1, true⟩ ∧ s1.sync.param = .charHandles ch) ∧
    (∃ s1, ble_client_gatts_add_descriptor 0 svch dsc (.descHandle dh0) clock
        (deliverAt k (.gattsAddDescRsp BLE_STATUS_SUCCESS dh)) fuel s0
        = some ⟨BLE_STATUS_SUCCESS, s1, true⟩ ∧ s1.sync.param = .descHandle dh) := by
  refine ⟨?_, ?_, ?_, ?_⟩
  · refine ⟨dispatchState (.gapRdBdaRsp BLE_STATUS_SUCCESS bd)
        { s0 with sync := { s0.sync with response := 0, param := .bda b0 } }, ?_, ?_⟩
    · simp only [ble_client_gap_get_bda, if_neg (by omega : ¬ (0 : Nat) ≠ 0)]
      rw [wait_complete clock k fuel _ _ rfl ?hdone hno hfuel]
      · simp [dispatchState, ble_core_client_handle_message,
          handle_msg_id_ble_gap_rd_bda_rsp, statusRspTrace, applyEff,
          BLE_STATUS_SUCCESS]
      case hdone =>
        simp [dispatchState, ble_core_client_handle_message,
          handle_msg_id_ble_gap_rd_bda_rsp, statusRspTrace, applyEff]
    · simp [dispatchState, ble_core_client_handle_message,
        handle_msg_id_ble_gap_rd_bda_rsp, statusRspTrace, applyEff]
  · refine ⟨dispatchState (.gattsAddServiceRsp BLE_STATUS_SUCCESS sh)
        { s0 with sync := { s0.sync with response := 0, param := .svcHandle sh0 } }, ?_, ?_⟩
    · simp only [ble_client_gatts_add_service, if_neg (by omega : ¬ (0 : Nat) ≠ 0)]
      rw [wait_complete clock k fuel _ _ rfl ?hdone2 hno hfuel]
      · simp [dispatchState, ble_core_client_handle_message,
          handle_msg_id_gatts_add_service_rsp, statusRspTrace, applyEff,
          BLE_STATUS_SUCCESS]
      case hdone2 =>
        simp [dispatchState, ble_core_client_handle_message,
          handle_msg_id_gatts_add_service_rsp, statusRspTrace, applyEff]
    · simp [dispatchState, ble_core_client_handle_message,
        handle_msg_id_gatts_add_service_rsp, statusRspTrace, applyEff]
  · refine ⟨dispatchState (.gattsAddCharRsp BLE_STATUS_SUCCESS ch)
        { s0 with sync := { s0.sync with response := 0, param := .charHandles c0 } }, ?_, ?_⟩
    · simp only [ble_client_gatts_add_characteristic, if_neg (by omega : ¬ (0 : Nat) ≠ 0)]
      rw [wait_complete clock k fuel _ _ rfl ?hdone3 hno hfuel]
      · simp [dispatchState, ble_core_client_handle_message,
          handle_msg_id_gatts_add_characteristic_rsp, statusRspTrace, applyEff,
          BLE_STATUS_SUCCESS]
      case hdone3 =>
        simp [dispatchState, ble_core_client_handle_message,
          handle_msg_id_gatts_add_characteristic_rsp, statusRspTrace, applyEff]
    · simp [dispatchState, ble_core_client_handle_message,
        handle_msg_id_gatts_add_characteristic_rsp, statusRspTrace, applyEff]
  · refine ⟨dispatchState (.gattsAddDescRsp BLE_STATUS_SUCCESS dh)
        { s0 with sync := { s0.sync with response := 0, param := .descHandle dh0 } }, ?_, ?_⟩
    · simp only [ble_client_gatts_add_descriptor, if_neg (by omega : ¬ (0 : Nat) ≠ 0)]
      rw [wait_complete clock k fuel _ _ rfl ?hdone4 hno hfuel]
      · simp [dispatchState, ble_core_client_handle_message,
          handle_msg_id_gatts_add_desc_rsp, statusRspTrace, applyEff,
          BLE_STATUS_SUCCESS]
      case hdone4 =>
        simp [dispatchState, ble_core_client_handle_message,
          handle_msg_id_gatts_add_desc_rsp, statusRspTrace, applyEff]
    · simp [dispatchState, ble_core_client_handle_message,
        handle_msg_id_gatts_add_desc_rsp, statusRspTrace, applyEff]

/-- C1 witness: with a constant-zero clock and the dispatcher responding
at the first poll iteration, adding a characteristic whose response
carries the handle set `{value = 0x10, cccd = 0x11}` (and likewise the
other three out-parameter operations) returns Success with exactly that
payload in the caller's destination. -/
theorem C1_outparam_witness :
    (∃ s1, ble_client_gap_get_bda 0 (.bda 0) (fun _ => 0)
        (deliverAt 0 (.gapRdBdaRsp BLE_STATUS_SUCCESS 77)) 1 initState
        = some ⟨BLE_STATUS_SUCCESS, s1, true⟩ ∧ s1.sync.param = .bda 77) ∧
    (∃ s1, ble_client_gatts_add_service 0 1 2 (.svcHandle 0) (fun _ => 0)
        (deliverAt 0 (.gattsAddServiceRsp BLE_STATUS_SUCCESS 33)) 1 initState
        = some ⟨BLE_STATUS_SUCCESS, s1, true⟩ ∧ s1.sync.param = .svcHandle 33) ∧
    (∃ s1, ble_client_gatts_add_characteristic 0 33 4 (.charHandles ⟨0, 0⟩) (fun _ => 0)
        (deliverAt 0 (.gattsAddCharRsp BLE_STATUS_SUCCESS ⟨16, 17⟩)) 1 initState
        = some ⟨BLE_STATUS_SUCCESS, s1, true⟩ ∧ s1.sync.param = .charHandles ⟨16, 17⟩) ∧
    (∃ s1, ble_client_gatts_add_descriptor 0 33 5 (.descHandle 0) (fun _ => 0)
        (deliverAt 0 (.gattsAddDescRsp BLE_STATUS_SUCCESS 44)) 1 initState
        = some ⟨BLE_STATUS_SUCCESS, s1, true⟩ ∧ s1.sync.param = .descHandle 44) :=
  C1_outparam_delivery initState (fun _ => 0) 0 1 0 77 0 33 0 44 1 2 33 4 5 ⟨0, 0⟩ ⟨16, 17⟩
    (by omega) (by omega)

/-- C3 counterexample: the claim asserts the timeout return occurs no
earlier than the fixed 32768-tick budget for every starting clock value,
but the deadline computation `get_uptime_32k() + 32768` wraps at 2^32:
starting at counter value 4294967295 the deadline wraps to 32767, the
very first poll read already exceeds it, and the wait returns Timeout
after zero elapsed ticks. -/
theorem C3_wraparound_counterexample :
    wait_for_condition (fun _ => 4294967295) (fun _ t => t) 1 initState
      = some (BLE_STATUS_TIMEOUT, initState) ∧
    get_uptime_32k (fun _ => 4294967295) 1 - get_uptime_32k (fun _ => 4294967295) 0 = 0 ∧
    (0 : Nat) < 32768 := by
  refine ⟨?_, rfl, by norm_num⟩
  rfl

/-- C3 (amended): for every starting clock value whose deadline
computation does not wrap 32-bit arithmetic (start + 32768 < 2^32), if
the slot is never completed the call returns Timeout, no earlier than
the fixed 32768-tick budget and no later than one polling-granularity
increment `g` beyond it (the clock advances by at most `g` per poll);
at wrapping start values the deadline overflows and the wait can return
Timeout immediately instead. -/
theorem C3_timeout_bounds (clock : Nat → Nat) (g k fuel : Nat) (s : ClientState)
    (hresp : s.sync.response = 0)
    (h32 : ∀ i, clock i < U32)
    (hstep : ∀ i, clock (i + 1) ≤ clock i + g)
    (hnowrap : clock 0 + 32768 < U32)
    (hkno : ∀ j, j < k → clock (j + 1) ≤ clock 0 + 32768)
    (hk : clock 0 + 32768 < clock (k + 1))
    (hfuel : k < fuel) :
    wait_for_condition clock (fun _ t => t) fuel s = some (BLE_STATUS_TIMEOUT, s) ∧
    clock 0 + 32768 < clock (k + 1) ∧
    clock (k + 1) ≤ clock 0 + 32768 + g := by
  have hread : ∀ i, get_uptime_32k clock i = clock i := fun i =>
    Nat.mod_eq_of_lt (h32 i)
  have hdead : (get_uptime_32k clock 0 + 32768) % U32 = clock 0 + 32768 := by
    rw [hread 0]
    exact Nat.mod_eq_of_lt hnowrap
  refine ⟨?_, hk, ?_⟩
  · refine wait_timeout clock k fuel s hresp ?_ ?_ hfuel
    · intro j hj
      rw [hdead, hread]
      exact hkno j hj
    · rw [hdead, hread]
      exact hk
  · cases k with
    | zero =>
      have := hstep 0
      omega
    | succ j =>
      have h1 := hstep (j + 1)
      have h2 := hkno j (Nat.lt_succ_self j)
      omega

/-- A concrete clock for the timeout witnesses: reads 0 once, then
40000 forever (one coarse polling-granularity step of 40000 ticks). -/
def stepClock : Nat → Nat := fun i => if i = 0 then 0 else 40000

/-- C3 witness: with `stepClock` (start 0, granularity 40000) and an
uncompleted slot, the wait returns Timeout after more than 32768 and at
most 32768 + 40000 elapsed ticks. -/
theorem C3_timeout_witness :
    wait_for_condition stepClock (fun _ t => t) 1 initState
      = some (BLE_STATUS_TIMEOUT, initState) ∧
    stepClock 0 + 32768 < stepClock 1 ∧
    stepClock 1 ≤ stepClock 0 + 32768 + 40000 :=
  C3_timeout_bounds stepClock 40000 0 1 initState rfl
    (by intro i
        simp only [stepClock, U32]
        split <;> omega)
    (by intro i
        simp only [stepClock, Nat.succ_ne_zero, if_false]
        split <;> omega)
    (by simp [stepClock, U32])
    (by omega)
    (by simp [stepClock])
    (by omega)

/-- C8: initialization first arms the slot and submits the
service-availability registration, then blocks on the distinguished
service-available event (an availability event for any other service id
leaves the slot untouched); if no completing delivery arrives before the
deadline, init returns Timeout, only the registration was submitted (no
open-service request), and the subscriber callback slots are left
exactly as they were (the callbacks are not stored). -/
theorem C8_init_timeout (s0 : ClientState) (clockA clockB : Nat → Nat)
    (deliverB : Nat → ClientState → ClientState) (fuelB : Nat)
    (gap_cb gatts_cb : Bool) (k fuelA : Nat)
    (hno : ∀ j, j < k →
      get_uptime_32k clockA (j + 1) ≤ (get_uptime_32k clockA 0 + 32768) % U32)
    (hk : (get_uptime_32k clockA 0 + 32768) % U32 < get_uptime_32k clockA (k + 1))
    (hfuel : k < fuelA) :
    ble_client_init 0 clockA clockB (fun _ t => t) deliverB fuelA fuelB gap_cb gatts_cb s0
      = some (BLE_STATUS_TIMEOUT,
          { s0 with sync := { s0.sync with response := 0 } }, [.registerSvcAvail]) ∧
    (∀ id t, id ≠ BLE_CORE_SERVICE_ID → dispatchState (.svcAvailEvt id) t = t) := by
  constructor
  · simp only [ble_client_init, if_neg (by omega : ¬ (0 : Nat) ≠ 0)]
    rw [wait_timeout clockA k fuelA _ rfl hno hk hfuel]
    simp [BLE_STATUS_TIMEOUT, BLE_STATUS_SUCCESS]
  · intro id t hid
    simp [dispatchState, ble_core_client_handle_message,
      handle_msg_id_cfw_svc_avail_evt, hid, applyEff]

/-- C8 witness: with `stepClock` for the first wait and no deliveries,
init on the fresh state returns Timeout having submitted only the
availability registration and without storing the callbacks; an
availability event for service id 5 (not the BLE core service) leaves
any state unchanged. -/
theorem C8_init_timeout_witness :
    ble_client_init 0 stepClock (fun _ => 0) (fun _ t => t) (fun _ t => t) 1 0 true true initState
      = some (BLE_STATUS_TIMEOUT,
          { initState with sync := { initState.sync with response := 0 } },
          [.registerSvcAvail]) ∧
    (∀ id t, id ≠ BLE_CORE_SERVICE_ID → dispatchState (.svcAvailEvt id) t = t) :=
  C8_init_timeout initState stepClock (fun _ => 0) (fun _ t => t) 0 true true 0 1
    (by omega)
    (by simp [stepClock, get_uptime_32k, U32])
    (by omega)
